import Mathlib

/-!
Shallow embedding of `ps9100.py`: a raw TCP (port 9100 / JetDirect) print
server that accepts one connection at a time, reads until the peer closes,
saves each non-empty job to a file under the `jobs` directory, and relays the
bytes to a USB printer found by fixed vendor/product identifiers.

The USB layer (`print_raw_to_usb`) is embedded by an environment of boolean
outcomes, one per fallible libusb operation; the Lean function returns both
the boolean result of the Python function and the ordered trace of USB
operations it performs, so that ordering, cleanup and no-retry properties can
be stated. The server loop (`start_print_server`) is embedded as a fold over
the list of incoming connections; startup (directory creation, bind) is
embedded separately as `startServer`, and the socket setup sequence as the
operation list `socketSetup`.
-/

namespace PS9100

/-- One libusb operation performed by `print_raw_to_usb` (`ps9100.py`,
lines 20-93): device lookup, kernel driver detach, set_configuration, reset,
bulk-OUT endpoint lookup, the endpoint write (with its buffer and timeout in
milliseconds), dispose_resources, and kernel driver reattach. -/
inductive UsbEvent where
  | find
  | detach
  | setConfiguration
  | reset
  | findEndpoint
  | write (data : List Nat) (timeoutMs : Nat)
  | dispose
  | attach
deriving DecidableEq, Repr

/-- Environment of outcomes for the fallible USB operations in
`print_raw_to_usb`. `devicePresent` is whether `usb.core.find` returns a
device; `isWin32` is `sys.platform == "win32"`; `kernelDriverActive` is the
initial `is_kernel_driver_active(0)`; the `...Ok` fields say whether the
corresponding call raises `usb.core.USBError`. `attachOk` is the outcome of
the final `attach_kernel_driver`; the exception is caught and only printed,
so it affects neither the result nor the trace of attempted operations. -/
structure UsbEnv where
  devicePresent : Bool
  isWin32 : Bool
  kernelDriverActive : Bool
  detachOk : Bool
  setConfigOk : Bool
  resetOk : Bool
  epFound : Bool
  writeOk : Bool
  attachOk : Bool
deriving DecidableEq, Repr

/-- Embedding of `print_raw_to_usb(data)` (`ps9100.py` lines 20-93).
Returns the boolean result of the Python function together with the trace of
USB operations attempted, in order. Control flow mirrors the source:
device not found returns False after the lookup; on non-win32 with an active
kernel driver the driver is detached, a detach failure disposing resources
and returning False; set_configuration then reset, a failure disposing and
returning False; the bulk-OUT endpoint lookup, absence disposing and
returning False; finally `ep.write(data, 1000)`, whose success decides the
result, followed by the `finally` block: dispose_resources and, when not on
win32 and the kernel driver is not active (always the case here, whether or
not a driver was detached), an attach attempt whose failure is only printed. -/
def print_raw_to_usb (env : UsbEnv) (data : List Nat) : Bool × List UsbEvent :=
  if !env.devicePresent then (false, [.find]) else
  if (!env.isWin32 && env.kernelDriverActive) && !env.detachOk then
    (false, [.find, .detach, .dispose]) else
  let pre : List UsbEvent :=
    if !env.isWin32 && env.kernelDriverActive then [.find, .detach] else [.find]
  if !env.setConfigOk then (false, pre ++ [.setConfiguration, .dispose]) else
  if !env.resetOk then (false, pre ++ [.setConfiguration, .reset, .dispose]) else
  if !env.epFound then
    (false, pre ++ [.setConfiguration, .reset, .findEndpoint, .dispose]) else
  let fin : List UsbEvent := if env.isWin32 then [.dispose] else [.dispose, .attach]
  (env.writeOk,
    pre ++ [.setConfiguration, .reset, .findEndpoint, .write data 1000] ++ fin)

/-- The full ordered sequence of USB operations of a maximal run of
`print_raw_to_usb`; every actual trace is a subsequence of it. -/
def usbCanonical (data : List Nat) : List UsbEvent :=
  [.find, .detach, .setConfiguration, .reset, .findEndpoint, .write data 1000,
   .dispose, .attach]

/-- Module-level constant `JOBS_FOLDER = "jobs"` (`ps9100.py` line 17). -/
def JOBS_FOLDER : String := "jobs"

/-- Value of a decimal digit character, used to read back `Nat.repr`. -/
def charVal (c : Char) : Nat := c.toNat - 48

/-- Number denoted by a list of decimal digit characters (most significant
first); left inverse of the decimal rendering used in filenames. -/
def ofChars (l : List Char) : Nat := List.foldl (fun acc c => 10 * acc + charVal c) 0 l

/-- Embedding of `addr[0].replace('.', '-')` (`ps9100.py` line 148). The
pattern is the single character `.`, so the replacement is exactly a
character-by-character map. -/
def sanitizeIp (ip : String) : String :=
  (ip.data.map fun c => if c = '.' then '-' else c).asString

/-- Embedding of the job filename construction (`ps9100.py` lines 146-148):
`os.path.join(JOBS_FOLDER, f"job_{timestamp}_{addr[0].replace('.', '-')}_{job_counter}.prn")`
with POSIX path joining. -/
def mkFilename (timestamp ip : String) (counter : Nat) : String :=
  JOBS_FOLDER ++ "/" ++ "job_" ++ timestamp ++ "_" ++ sanitizeIp ip ++ "_"
    ++ Nat.repr counter ++ ".prn"

/-- One incoming TCP connection as the accept loop sees it: the client IP
(`addr[0]`), the timestamp string `datetime.now().strftime("%Y%m%d_%H%M%S")`
taken while the job is processed, the successive non-empty `recv` results
before EOF, whether `recv` raises an `OSError` instead of returning the
end-of-stream marker, whether the file write succeeds, and the USB
environment in effect for the relay attempt. Bytes are numbers. -/
structure Conn where
  ip : String
  timestamp : String
  chunks : List (List Nat)
  readError : Bool
  fileWriteOk : Bool
  usb : UsbEnv
deriving Repr

/-- The buffer `full_data` accumulated by `full_data += data` over all chunks
of a connection that reaches EOF (`ps9100.py` lines 134-140). -/
def fullData (c : Conn) : List Nat := c.chunks.flatten

/-- One file created under the jobs directory: the components of its name and
its exact content. -/
structure JobRecord where
  timestamp : String
  ip : String
  counter : Nat
  content : List Nat
deriving Repr

/-- The full path of a saved job file. -/
def JobRecord.filename (r : JobRecord) : String :=
  mkFilename r.timestamp r.ip r.counter

/-- Result of handling one connection body (`ps9100.py` lines 142-159):
the files created (empty or a singleton), the buffer passed to
`print_raw_to_usb` when it is invoked, and its boolean result. -/
structure StepResult where
  files : List JobRecord
  relayArg : Option (List Nat)
  relayResult : Option Bool
deriving Repr

/-- Embedding of the per-connection body (`ps9100.py` lines 142-159), with
`counter` the value of `job_counter` for this connection: an empty buffer is
only logged (no file, no relay); otherwise the buffer is written to the
constructed filename (an `IOError` is caught and printed, leaving no file)
and `print_raw_to_usb` is invoked with the same buffer either way. -/
def handleConn (counter : Nat) (c : Conn) : StepResult :=
  if fullData c = [] then ⟨[], none, none⟩
  else
    ⟨if c.fileWriteOk then [⟨c.timestamp, c.ip, counter, fullData c⟩] else [],
     some (fullData c),
     some (print_raw_to_usb c.usb (fullData c)).1⟩

/-- Observable outcome of the accept loop on a finite stream of connections:
the saved files in creation order, the buffers handed to the relay in order,
the final value of `job_counter`, and whether the loop was terminated by an
`OSError` escaping a `recv` call (which the outer handler at `ps9100.py`
lines 161-171 turns into server shutdown). -/
structure RunResult where
  saved : List JobRecord
  relayCalls : List (List Nat)
  counter : Nat
  aborted : Bool
deriving Repr

/-- Embedding of the accept loop (`ps9100.py` lines 127-159) run on a finite
stream of incoming connections, starting from a given `job_counter` value.
`job_counter` is incremented as soon as a connection is accepted. A read
error raises `OSError` out of the loop: the partial buffer is dropped, no
file is written, no relay happens, and no further connection is accepted. -/
def runLoop (counter : Nat) : List Conn → RunResult
  | [] => ⟨[], [], counter, false⟩
  | c :: rest =>
    if c.readError then ⟨[], [], counter + 1, true⟩
    else
      let st := handleConn (counter + 1) c
      let r := runLoop (counter + 1) rest
      ⟨st.files ++ r.saved, st.relayArg.toList ++ r.relayCalls, r.counter, r.aborted⟩

/-- Environment for server startup (`ps9100.py` lines 104-121): whether the
jobs directory already exists, whether `os.makedirs` succeeds, and whether
`s.bind` succeeds. -/
structure StartupEnv where
  jobsDirExists : Bool
  mkdirOk : Bool
  bindOk : Bool
deriving DecidableEq, Repr

/-- How the process leaves `start_print_server` during startup: terminated
with an exit status, or entered the accept loop. -/
inductive ProcessOutcome where
  | exited (code : Nat)
  | looping
deriving DecidableEq, Repr

/-- Whether an outcome is a termination with a non-zero exit status. -/
def exitedNonzero : ProcessOutcome → Bool
  | .exited code => code != 0
  | .looping => false

/-- Embedding of the startup portion of `start_print_server` (`ps9100.py`
lines 104-121 and 161-171). If the jobs directory is absent and `makedirs`
fails, the code calls `sys.exit(1)`, so the process exits with status 1.
If `bind` raises `OSError`, the `except OSError` clause prints the error,
the `finally` clause closes the socket, `start_print_server` returns
normally, and the interpreter exits with status 0. Otherwise the accept
loop is entered. -/
def startServer (env : StartupEnv) : ProcessOutcome :=
  if !env.jobsDirExists && !env.mkdirOk then .exited 1
  else if !env.bindOk then .exited 0
  else .looping

/-- One operation on the listening socket during setup. -/
inductive SockOp where
  | create
  | setReuseAddr (value : Nat)
  | bindTo (host : String) (port : Nat)
  | listenWith (backlog : Nat)
deriving DecidableEq, Repr

/-- The socket setup sequence of `start_print_server` (`ps9100.py` lines
114-120): create the socket, `setsockopt(SOL_SOCKET, SO_REUSEADDR, 1)`,
`bind(("0.0.0.0", port))`, `listen(1)`, in this order. -/
def socketSetup (port : Nat) : List SockOp :=
  [.create, .setReuseAddr 1, .bindTo "0.0.0.0" port, .listenWith 1]

/-- A USB environment where every operation succeeds, on a non-win32 platform
with the kernel driver initially active. -/
def envAllOk : UsbEnv :=
  ⟨true, false, true, true, true, true, true, true, true⟩

/-- A USB environment where the device is present, the kernel driver is
detached successfully, and then `set_configuration` fails. -/
def envCfgFail : UsbEnv :=
  ⟨true, false, true, true, false, true, true, true, true⟩

/-- A demonstration connection delivering `b"HI"` in two chunks. -/
def connDemo : Conn :=
  ⟨"192.168.0.7", "20251012_120000", [[72], [73]], false, true, envAllOk⟩

/-- A demonstration connection that closes without sending any data. -/
def connEmpty : Conn :=
  ⟨"192.168.0.7", "20251012_120001", [], false, true, envAllOk⟩

/-- A demonstration connection on which `recv` raises after one chunk. -/
def connErr : Conn :=
  ⟨"10.0.0.2", "20251012_120002", [[1, 2, 3]], true, true, envAllOk⟩

/-! Helper lemmas about the decimal rendering `Nat.repr` used in filenames:
its characters are decimal digits (so never an underscore), and it is
injective. -/

lemma toDigitsCore_shift (f : Nat) : ∀ (n : Nat) (ds : List Char),
    Nat.toDigitsCore 10 f n ds = Nat.toDigitsCore 10 f n [] ++ ds := by
  induction f with
  | zero => intro n ds; simp [Nat.toDigitsCore]
  | succ f ih =>
    intro n ds
    simp only [Nat.toDigitsCore]
    by_cases h : n / 10 = 0
    · simp [h]
    · simp only [h, if_false]
      rw [ih (n / 10) (Nat.digitChar (n % 10) :: ds),
        ih (n / 10) [Nat.digitChar (n % 10)]]
      simp

lemma charVal_digitChar : ∀ d, d < 10 → charVal (Nat.digitChar d) = d := by decide

lemma ofChars_append_one (l : List Char) (c : Char) :
    ofChars (l ++ [c]) = 10 * ofChars l + charVal c := by
  simp [ofChars, List.foldl_append]

lemma ofChars_toDigitsCore (f : Nat) : ∀ n, n < f →
    ofChars (Nat.toDigitsCore 10 f n []) = n := by
  induction f with
  | zero => intro n h; exact absurd h (Nat.not_lt_zero n)
  | succ f ih =>
    intro n hn
    simp only [Nat.toDigitsCore]
    by_cases h : n / 10 = 0
    · have hn10 : n < 10 := by omega
      simp only [h, if_true]
      have : ofChars [Nat.digitChar (n % 10)] = n % 10 := by
        simpa [ofChars] using charVal_digitChar (n % 10) (Nat.mod_lt n (by norm_num))
      rw [this]
      omega
    · have hpos : 0 < n := by
        rcases Nat.eq_zero_or_pos n with h0 | h0
        · exact absurd (by simp [h0]) h
        · exact h0
      have hlt : n / 10 < f := by
        have := Nat.div_lt_self hpos (by norm_num : 1 < 10)
        omega
      simp only [h, if_false]
      rw [toDigitsCore_shift, ofChars_append_one, ih (n / 10) hlt,
        charVal_digitChar (n % 10) (Nat.mod_lt n (by norm_num))]
      omega

lemma ofChars_repr (n : Nat) : ofChars (Nat.repr n).data = n :=
  ofChars_toDigitsCore (n + 1) n (Nat.lt_succ_self n)

lemma repr_data_inj {m n : Nat} (h : (Nat.repr m).data = (Nat.repr n).data) :
    m = n := by
  rw [← ofChars_repr m, ← ofChars_repr n, h]

lemma digitChar_ne_underscore : ∀ d, d < 10 → Nat.digitChar d ≠ '_' := by decide

lemma toDigitsCore_no_underscore (f : Nat) : ∀ (n : Nat) (ds : List Char),
    '_' ∉ ds → '_' ∉ Nat.toDigitsCore 10 f n ds := by
  induction f with
  | zero => intro n ds h; simpa [Nat.toDigitsCore] using h
  | succ f ih =>
    intro n ds h
    simp only [Nat.toDigitsCore]
    have hd : '_' ∉ Nat.digitChar (n % 10) :: ds := by
      intro hmem
      rcases List.mem_cons.mp hmem with heq | hds
      · exact digitChar_ne_underscore (n % 10) (Nat.mod_lt n (by norm_num)) heq.symm
      · exact h hds
    by_cases hq : n / 10 = 0
    · simpa [hq] using hd
    · simpa [hq] using ih (n / 10) (Nat.digitChar (n % 10) :: ds) hd

lemma repr_no_underscore (n : Nat) : '_' ∉ (Nat.repr n).data :=
  toDigitsCore_no_underscore (n + 1) n [] (by simp)

/-- If two lists agree and each is split at an occurrence of a separator
that does not occur in the part after it, the parts after the separator
agree: the separator occurrence is the last one in each list. -/
lemma append_sep_inj (s : Char) : ∀ (a₁ : List Char) (a₂ d₁ d₂ : List Char),
    s ∉ d₁ → s ∉ d₂ → a₁ ++ s :: d₁ = a₂ ++ s :: d₂ → d₁ = d₂ := by
  intro a₁
  induction a₁ with
  | nil =>
    intro a₂ d₁ d₂ h₁ h₂ h
    cases a₂ with
    | nil =>
      simp only [List.nil_append] at h
      exact (List.cons.injEq .. ▸ h).2
    | cons y ys =>
      simp only [List.nil_append, List.cons_append] at h
      have hd : d₁ = ys ++ s :: d₂ := (List.cons.injEq .. ▸ h).2
      exact absurd (hd ▸ List.mem_append_right ys (List.mem_cons_self s d₂)) h₁
  | cons x xs ih =>
    intro a₂ d₁ d₂ h₁ h₂ h
    cases a₂ with
    | nil =>
      simp only [List.nil_append, List.cons_append] at h
      have hd : d₂ = xs ++ s :: d₁ := (List.cons.injEq .. ▸ h.symm).2
      exact absurd (hd ▸ List.mem_append_right xs (List.mem_cons_self s d₁)) h₂
    | cons y ys =>
      simp only [List.cons_append] at h
      exact ih ys d₁ d₂ h₁ h₂ (List.cons.injEq .. ▸ h).2

lemma underscore_data : "_".data = ['_'] := rfl

lemma mkFilename_data (ts ip : String) (k : Nat) :
    (mkFilename ts ip k).data
      = ("jobs".data ++ "/".data ++ "job_".data ++ ts.data
          ++ '_' :: (sanitizeIp ip).data)
        ++ '_' :: ((Nat.repr k).data ++ ".prn".data) := by
  simp [mkFilename, JOBS_FOLDER, String.data_append, underscore_data,
    List.append_assoc]

/-- The per-process counter component determines the rest: two job filenames
with underscore-free sanitized client addresses can be equal only if their
counter components are equal. -/
lemma mkFilename_counter_inj {ts₁ ts₂ ip₁ ip₂ : String} {k₁ k₂ : Nat}
    (h₁ : '_' ∉ (sanitizeIp ip₁).data) (h₂ : '_' ∉ (sanitizeIp ip₂).data)
    (h : mkFilename ts₁ ip₁ k₁ = mkFilename ts₂ ip₂ k₂) : k₁ = k₂ := by
  have hd := congrArg String.data h
  rw [mkFilename_data, mkFilename_data] at hd
  have hnu₁ : '_' ∉ (Nat.repr k₁).data ++ ".prn".data := by
    intro hmem
    rcases List.mem_append.mp hmem with hr | hp
    · exact repr_no_underscore k₁ hr
    · exact (by decide : '_' ∉ ".prn".data) hp
  have hnu₂ : '_' ∉ (Nat.repr k₂).data ++ ".prn".data := by
    intro hmem
    rcases List.mem_append.mp hmem with hr | hp
    · exact repr_no_underscore k₂ hr
    · exact (by decide : '_' ∉ ".prn".data) hp
  have htail := append_sep_inj '_' _ _ _ _ hnu₁ hnu₂ hd
  exact repr_data_inj (List.append_cancel_right htail)

lemma mkFilename_ne {ts₁ ts₂ ip₁ ip₂ : String} {k₁ k₂ : Nat}
    (h₁ : '_' ∉ (sanitizeIp ip₁).data) (h₂ : '_' ∉ (sanitizeIp ip₂).data)
    (hk : k₁ ≠ k₂) : mkFilename ts₁ ip₁ k₁ ≠ mkFilename ts₂ ip₂ k₂ :=
  fun h => hk (mkFilename_counter_inj h₁ h₂ h)

/-! Helper lemmas about the accept loop. -/

lemma handleConn_nonempty (k : Nat) (c : Conn) (h : fullData c ≠ []) :
    handleConn k c
      = ⟨if c.fileWriteOk then [⟨c.timestamp, c.ip, k, fullData c⟩] else [],
         some (fullData c), some (print_raw_to_usb c.usb (fullData c)).1⟩ := by
  unfold handleConn
  rw [if_neg h]

lemma handleConn_files (k : Nat) (c : Conn) :
    (handleConn k c).files = [] ∨
      (handleConn k c).files = [⟨c.timestamp, c.ip, k, fullData c⟩] := by
  unfold handleConn
  by_cases h : fullData c = []
  · simp [h]
  · by_cases hw : c.fileWriteOk <;> simp [h, hw]

lemma runLoop_saved_spec (cs : List Conn) : ∀ k, ∀ r ∈ (runLoop k cs).saved,
    (∃ c ∈ cs, r.ip = c.ip) ∧ k < r.counter := by
  induction cs with
  | nil => intro k r hr; simp [runLoop] at hr
  | cons c rest ih =>
    intro k r hr
    by_cases he : c.readError = true
    · simp [runLoop, he] at hr
    · rw [runLoop, if_neg he] at hr
      rcases List.mem_append.mp hr with h1 | h2
      · rcases handleConn_files (k + 1) c with hf | hf
        · rw [hf] at h1; cases h1
        · rw [hf] at h1
          rw [List.mem_singleton.mp h1]
          exact ⟨⟨c, List.mem_cons_self .., rfl⟩, Nat.lt_succ_self k⟩
      · obtain ⟨⟨c', hc', hip⟩, hk⟩ := ih (k + 1) r h2
        exact ⟨⟨c', List.mem_cons_of_mem _ hc', hip⟩, by omega⟩

lemma runLoop_saved_pairwise (cs : List Conn) : ∀ k,
    ((runLoop k cs).saved).Pairwise (fun a b => a.counter < b.counter) := by
  induction cs with
  | nil => intro k; simp [runLoop]
  | cons c rest ih =>
    intro k
    by_cases he : c.readError = true
    · simp [runLoop, he]
    · rw [runLoop, if_neg he]
      rw [List.pairwise_append]
      refine ⟨?_, ih (k + 1), ?_⟩
      · rcases handleConn_files (k + 1) c with hf | hf <;> simp [hf]
      · intro a ha b hb
        rcases handleConn_files (k + 1) c with hf | hf
        · rw [hf] at ha; cases ha
        · rw [hf] at ha
          rw [List.mem_singleton.mp ha]
          exact (runLoop_saved_spec rest (k + 1) b hb).2

lemma runLoop_counter_clean (cs : List Conn) : ∀ k,
    (∀ c ∈ cs, c.readError = false) →
    (runLoop k cs).counter = k + cs.length := by
  induction cs with
  | nil => intro k _; simp [runLoop]
  | cons c rest ih =>
    intro k h
    have hc : c.readError = false := h c (List.mem_cons_self ..)
    rw [runLoop, if_neg (by simp [hc])]
    have := ih (k + 1) (fun c' hc' => h c' (List.mem_cons_of_mem _ hc'))
    simp only [this, List.length_cons]
    omega

/-! The claims about the server loop. -/

/-- C1: over one cleanly closed connection whose file write succeeds, a
non-empty received byte sequence yields exactly one saved file whose content
is the concatenation of the received chunks, with no transformation; an
empty sequence yields no file and no relay invocation. -/
theorem C1_byte_roundtrip (k : Nat) (c : Conn)
    (hclean : c.readError = false) (hw : c.fileWriteOk = true) :
    (c.chunks.flatten ≠ [] →
       (runLoop k [c]).saved.map JobRecord.content = [c.chunks.flatten] ∧
       (runLoop k [c]).relayCalls = [c.chunks.flatten]) ∧
    (c.chunks.flatten = [] →
       (runLoop k [c]).saved = [] ∧ (runLoop k [c]).relayCalls = []) := by
  constructor
  · intro hne
    rw [runLoop, if_neg (by simp [hclean])]
    simp [runLoop, handleConn, fullData, hne, hw]
  · intro hemp
    rw [runLoop, if_neg (by simp [hclean])]
    simp [runLoop, handleConn, fullData, hemp]

/-- C1 witness: the demonstration connections evaluate as the theorem
states. -/
theorem C1_byte_roundtrip_witness :
    (runLoop 5 [connDemo]).saved.map JobRecord.content = [[72, 73]] ∧
    (runLoop 5 [connEmpty]).saved = [] ∧
    (runLoop 5 [connEmpty]).relayCalls = [] :=
  ⟨((C1_byte_roundtrip 5 connDemo rfl rfl).1 (by decide)).1,
   ((C1_byte_roundtrip 5 connEmpty rfl rfl).2 (by decide)).1,
   ((C1_byte_roundtrip 5 connEmpty rfl rfl).2 (by decide)).2⟩

/-- C2 counterexample: with the jobs directory present and the bind failing,
the `OSError` is caught, `start_print_server` returns normally and the
process terminates with exit status 0 — not a non-zero status as claimed. -/
theorem C2_counterexample :
    startServer ⟨true, true, false⟩ = ProcessOutcome.exited 0 ∧
    exitedNonzero (startServer ⟨true, true, false⟩) = false := ⟨rfl, rfl⟩

/-- C2 amended: a jobs-directory creation failure aborts the process with
exit status 1 (non-zero, via `sys.exit(1)`); a bind failure is reported and
the process terminates with exit status 0 (the `OSError` is caught, the
socket is closed and `start_print_server` returns normally); otherwise the
accept loop is entered. -/
theorem C2_startup_exit (env : StartupEnv) :
    (env.jobsDirExists = false → env.mkdirOk = false →
       startServer env = ProcessOutcome.exited 1 ∧
       exitedNonzero (startServer env) = true) ∧
    (env.jobsDirExists = true ∨ env.mkdirOk = true → env.bindOk = false →
       startServer env = ProcessOutcome.exited 0 ∧
       exitedNonzero (startServer env) = false) ∧
    (env.jobsDirExists = true ∨ env.mkdirOk = true → env.bindOk = true →
       startServer env = ProcessOutcome.looping) := by
  obtain ⟨d, m, b⟩ := env
  cases d <;> cases m <;> cases b <;> simp [startServer, exitedNonzero]

/-- C2 witness: concrete startup environments taking each branch. -/
theorem C2_startup_exit_witness :
    startServer ⟨false, false, true⟩ = ProcessOutcome.exited 1 ∧
    startServer ⟨true, true, true⟩ = ProcessOutcome.looping :=
  ⟨((C2_startup_exit ⟨false, false, true⟩).1 rfl rfl).1,
   (C2_startup_exit ⟨true, true, true⟩).2.2 (Or.inl rfl) rfl⟩

/-- C3 counterexample: a read error on the first connection terminates the
accept loop (the `OSError` escapes to the outer handler), so a subsequent
well-behaved connection is never serviced: no file is saved for it and no
relay happens — the loop does not continue accepting as claimed. -/
theorem C3_counterexample :
    (runLoop 0 [connErr, connDemo]).aborted = true ∧
    (runLoop 0 [connErr, connDemo]).saved = [] ∧
    (runLoop 0 [connErr, connDemo]).relayCalls = [] := ⟨rfl, rfl, rfl⟩

/-- C3 amended: on a connection whose read raises an error, the partially
accumulated buffer is abandoned (no file is created and no relay is
attempted for it), but the accept loop terminates rather than continuing:
the error escapes to the outer `except OSError` handler, the listening
socket is closed, and no subsequent connection is accepted. -/
theorem C3_read_error (k : Nat) (c : Conn) (rest : List Conn)
    (h : c.readError = true) :
    runLoop k (c :: rest) = ⟨[], [], k + 1, true⟩ := by
  rw [runLoop, if_pos h]

/-- C3 witness: a concrete erroring connection followed by a healthy one. -/
theorem C3_read_error_witness :
    runLoop 0 [connErr, connDemo] = ⟨[], [], 1, true⟩ :=
  C3_read_error 0 connErr [connDemo] rfl

/-- C5: for a non-empty job, a file-write failure does not stop processing:
the relay is still invoked with the same buffer (first two conjuncts, with
and without the write failing); the relay environment never changes which
files are written (third conjunct), and when the write succeeds the file
exists (fourth conjunct); and handling the connection, whatever the write
and relay outcomes, the accept loop goes on to the remaining connections
(last conjunct). -/
theorem C5_write_relay_isolation (k : Nat) (c : Conn) (rest : List Conn)
    (h : fullData c ≠ []) :
    ((handleConn k { c with fileWriteOk := false }).relayArg = some (fullData c)) ∧
    ((handleConn k c).relayArg = some (fullData c)) ∧
    (∀ u : UsbEnv, (handleConn k { c with usb := u }).files = (handleConn k c).files) ∧
    (c.fileWriteOk = true → (handleConn k c).files = [⟨c.timestamp, c.ip, k, fullData c⟩]) ∧
    (c.readError = false →
       (runLoop k (c :: rest)).saved
           = (handleConn (k + 1) c).files ++ (runLoop (k + 1) rest).saved ∧
       (runLoop k (c :: rest)).relayCalls
           = fullData c :: (runLoop (k + 1) rest).relayCalls ∧
       (runLoop k (c :: rest)).aborted = (runLoop (k + 1) rest).aborted) := by
  have hb : fullData { c with fileWriteOk := false } ≠ [] := h
  have hu : ∀ u : UsbEnv, fullData { c with usb := u } ≠ [] := fun _ => h
  refine ⟨?_, ?_, ?_, ?_, ?_⟩
  · rw [handleConn_nonempty _ _ hb]
    rfl
  · rw [handleConn_nonempty _ _ h]
  · intro u
    rw [handleConn_nonempty _ _ (hu u), handleConn_nonempty _ _ h]
    rfl
  · intro hw
    rw [handleConn_nonempty _ _ h]
    simp [hw]
  · intro hclean
    rw [runLoop, if_neg (by simp [hclean])]
    refine ⟨rfl, ?_, rfl⟩
    rw [handleConn_nonempty _ _ h]
    rfl

/-- C5 witness: the concrete demonstration connection, with its write
disabled, still relays the exact received bytes, and the loop proceeds to
the next connection. -/
theorem C5_write_relay_isolation_witness :
    (handleConn 1 { connDemo with fileWriteOk := false }).relayArg = some [72, 73] ∧
    (runLoop 0 [connDemo, connEmpty]).aborted = (runLoop 1 [connEmpty]).aborted :=
  ⟨(C5_write_relay_isolation 1 connDemo [] (by decide)).1,
   ((C5_write_relay_isolation 0 connDemo [connEmpty] (by decide)).2.2.2.2 rfl).2.2⟩

/-- C6: every saved job file has the documented name shape
`jobs/job_<timestamp>_<client-ip-with-dashes>_<counter>.prn`, and any two
jobs saved in one run have strictly ordered counter components and hence
different filenames — even when timestamp and client IP coincide — provided
each sanitized client address is underscore-free (true of any IP address). -/
theorem C6_filename_unique (k : Nat) (cs : List Conn)
    (hip : ∀ c ∈ cs, '_' ∉ (sanitizeIp c.ip).data) :
    (∀ r ∈ (runLoop k cs).saved,
       r.filename = JOBS_FOLDER ++ "/" ++ "job_" ++ r.timestamp ++ "_"
         ++ sanitizeIp r.ip ++ "_" ++ Nat.repr r.counter ++ ".prn") ∧
    ((runLoop k cs).saved).Pairwise
      (fun a b => a.counter < b.counter ∧ a.filename ≠ b.filename) := by
  constructor
  · intro r _
    rfl
  · refine List.Pairwise.imp_of_mem ?_ (runLoop_saved_pairwise cs k)
    intro a b ha hb hlt
    obtain ⟨⟨ca, hca, hipa⟩, _⟩ := runLoop_saved_spec cs k a ha
    obtain ⟨⟨cb, hcb, hipb⟩, _⟩ := runLoop_saved_spec cs k b hb
    refine ⟨hlt, ?_⟩
    have hua : '_' ∉ (sanitizeIp a.ip).data := by rw [hipa]; exact hip ca hca
    have hub : '_' ∉ (sanitizeIp b.ip).data := by rw [hipb]; exact hip cb hcb
    exact mkFilename_ne hua hub (Nat.ne_of_lt hlt)

/-- C6 witness: two jobs from the same client in the same second still get
distinct filenames. -/
theorem C6_filename_unique_witness :
    ((runLoop 0 [connDemo, connDemo]).saved).Pairwise
      (fun a b => a.counter < b.counter ∧ a.filename ≠ b.filename) :=
  (C6_filename_unique 0 [connDemo, connDemo] (by decide)).2

/-- C8: the listening socket setup performs exactly create, then
`setsockopt(SOL_SOCKET, SO_REUSEADDR, 1)`, then `bind(("0.0.0.0", port))`,
then `listen(1)`; in particular address reuse is enabled at an index
strictly before the bind. -/
theorem C8_reuseaddr_before_bind (port : Nat) :
    socketSetup port
        = [.create, .setReuseAddr 1, .bindTo "0.0.0.0" port, .listenWith 1] ∧
    ∃ i j : Nat, i < j ∧ (socketSetup port)[i]? = some (SockOp.setReuseAddr 1) ∧
      (socketSetup port)[j]? = some (SockOp.bindTo "0.0.0.0" port) :=
  ⟨rfl, 1, 2, by omega, rfl, rfl⟩

/-- C9: the job counter advances by one for every accepted connection of an
error-free run, empty jobs included; the counters embedded in saved files
are strictly increasing; and they may skip values, as in the concrete run
where an empty job consumes counter 1 and the only saved file carries
counter 2. -/
theorem C9_counter_monotone (k : Nat) (cs : List Conn)
    (h : ∀ c ∈ cs, c.readError = false) :
    (runLoop k cs).counter = k + cs.length ∧
    ((runLoop k cs).saved.map JobRecord.counter).Pairwise (fun a b => a < b) ∧
    (runLoop 0 [connEmpty, connDemo]).saved.map JobRecord.counter = [2] :=
  ⟨runLoop_counter_clean cs k h,
   List.pairwise_map.mpr (runLoop_saved_pairwise cs k),
   rfl⟩

/-- C9 witness: the two-connection demonstration run (one empty, one not). -/
theorem C9_counter_monotone_witness :
    (runLoop 0 [connEmpty, connDemo]).counter = 0 + 2 :=
  (C9_counter_monotone 0 [connEmpty, connDemo] (by decide)).1

/-! Helper lemmas about the USB relay traces. -/

lemma usb_trace_sublist (env : UsbEnv) (d : List Nat) :
    List.Sublist (print_raw_to_usb env d).2 (usbCanonical d) := by
  obtain ⟨dp, w, act, det, cfg, rst, ep, wr, att⟩ := env
  cases dp <;> cases w <;> cases act <;> cases det <;> cases cfg <;> cases rst <;>
      cases ep <;> simp [print_raw_to_usb, usbCanonical]

lemma usbCanonical_nodup (d : List Nat) : (usbCanonical d).Nodup := by
  simp [usbCanonical]

lemma usbCanonical_count_le_one (d : List Nat) (e : UsbEvent) :
    (usbCanonical d).count e ≤ 1 :=
  List.nodup_iff_count_le_one.mp (usbCanonical_nodup d) e

/-! The claims about the USB relay. -/

/-- C7: every relay attempt performs its operations in the fixed order given
by `usbCanonical` (its trace is a subsequence of it), never performs an
operation twice (no retry), aborts directly after the lookup when the device
is absent, skips the kernel-driver detach on win32, and the only write it
can issue carries the job buffer and the fixed 1000 ms timeout. -/
theorem C7_relay_fixed_order (env : UsbEnv) (d : List Nat) :
    List.Sublist (print_raw_to_usb env d).2 (usbCanonical d) ∧
    (∀ e : UsbEvent, (print_raw_to_usb env d).2.count e ≤ 1) ∧
    (env.devicePresent = false → print_raw_to_usb env d = (false, [UsbEvent.find])) ∧
    (env.isWin32 = true → UsbEvent.detach ∉ (print_raw_to_usb env d).2) ∧
    (∀ buf t, UsbEvent.write buf t ∈ (print_raw_to_usb env d).2 →
       buf = d ∧ t = 1000) := by
  refine ⟨usb_trace_sublist env d,
    fun e => ((usb_trace_sublist env d).count_le e).trans (usbCanonical_count_le_one d e),
    ?_, ?_, ?_⟩
  · intro hdp
    simp [print_raw_to_usb, hdp]
  · obtain ⟨dp, w, act, det, cfg, rst, ep, wr, att⟩ := env
    cases w
    · intro hw
      simp at hw
    · intro _
      cases dp <;> cases cfg <;> cases rst <;> cases ep <;> simp [print_raw_to_usb]
  · intro buf t hmem
    have h2 := (usb_trace_sublist env d).subset hmem
    simp [usbCanonical] at h2
    exact h2

/-- C7 witness: a concrete all-success environment evaluates to a trace that
is a subsequence of the canonical order. -/
theorem C7_relay_fixed_order_witness :
    List.Sublist (print_raw_to_usb envAllOk [7]).2 (usbCanonical [7]) :=
  (C7_relay_fixed_order envAllOk [7]).1

/-- C4 counterexample: when the device is present, the kernel driver is
detached successfully, and then `set_configuration` fails, the claim is
released (`dispose`) but no reattach of the detached driver is attempted:
the reattach lives in the `finally` block of the write step, which this exit
path never reaches — contradicting the claim that every exit path that
detached a driver attempts a reattach. -/
theorem C4_counterexample :
    UsbEvent.detach ∈ (print_raw_to_usb envCfgFail [7]).2 ∧
    UsbEvent.dispose ∈ (print_raw_to_usb envCfgFail [7]).2 ∧
    UsbEvent.attach ∉ (print_raw_to_usb envCfgFail [7]).2 := by decide

/-- C4 amended: on every exit path of a relay attempt that found the device,
the device claim is released (`dispose_resources` appears in the trace); a
reattach is attempted only on the paths that reach the write step (where, on
non-win32 platforms, it always is), and a reattach failure is reported but
not escalated — it changes neither result nor trace; on the
set-configuration failure, reset failure and endpoint-not-found exit paths
no reattach is attempted even when a driver was detached. -/
theorem C4_release_and_reattach (env : UsbEnv) (d : List Nat)
    (hdev : env.devicePresent = true) :
    UsbEvent.dispose ∈ (print_raw_to_usb env d).2 ∧
    (env.isWin32 = false → UsbEvent.write d 1000 ∈ (print_raw_to_usb env d).2 →
       UsbEvent.attach ∈ (print_raw_to_usb env d).2) ∧
    print_raw_to_usb { env with attachOk := false } d = print_raw_to_usb env d ∧
    (env.setConfigOk = false → UsbEvent.attach ∉ (print_raw_to_usb env d).2) ∧
    (env.resetOk = false → UsbEvent.attach ∉ (print_raw_to_usb env d).2) ∧
    (env.epFound = false → UsbEvent.attach ∉ (print_raw_to_usb env d).2) := by
  obtain ⟨dp, w, act, det, cfg, rst, ep, wr, att⟩ := env
  cases dp
  · simp at hdev
  · cases w <;> cases act <;> cases det <;> cases cfg <;> cases rst <;> cases ep <;>
      simp [print_raw_to_usb]

/-- C4 witness: in the all-success environment the claim is released and the
driver reattach is attempted. -/
theorem C4_release_and_reattach_witness :
    UsbEvent.dispose ∈ (print_raw_to_usb envAllOk [7]).2 ∧
    UsbEvent.attach ∈ (print_raw_to_usb envAllOk [7]).2 :=
  ⟨(C4_release_and_reattach envAllOk [7] rfl).1,
   (C4_release_and_reattach envAllOk [7] rfl).2.1 rfl (by decide)⟩

/-- C10: `print_raw_to_usb` returns True exactly when the bulk-OUT write was
attempted and raised no USB error; the outcome of the driver reattach in the
cleanup never changes the returned value. -/
theorem C10_result_reflects_write (env : UsbEnv) (d : List Nat) :
    ((print_raw_to_usb env d).1 = true ↔
       UsbEvent.write d 1000 ∈ (print_raw_to_usb env d).2 ∧ env.writeOk = true) ∧
    (print_raw_to_usb { env with attachOk := false } d).1
        = (print_raw_to_usb env d).1 := by
  obtain ⟨dp, w, act, det, cfg, rst, ep, wr, att⟩ := env
  cases dp <;> cases w <;> cases act <;> cases det <;> cases cfg <;> cases rst <;>
    cases ep <;> cases wr <;> simp [print_raw_to_usb]

/-- C10 witness: in the all-success environment the write is in the trace
and the function returns True, also with the reattach failing. -/
theorem C10_result_reflects_write_witness :
    (print_raw_to_usb envAllOk [9]).1 = true ∧
    (print_raw_to_usb { envAllOk with attachOk := false } [9]).1
        = (print_raw_to_usb envAllOk [9]).1 :=
  ⟨(C10_result_reflects_write envAllOk [9]).1.mpr (by decide),
   (C10_result_reflects_write envAllOk [9]).2⟩

/-- C8 witness: the default port. -/
theorem C8_reuseaddr_before_bind_witness :
    socketSetup 9100
      = [.create, .setReuseAddr 1, .bindTo "0.0.0.0" 9100, .listenWith 1] :=
  (C8_reuseaddr_before_bind 9100).1

end PS9100
